import Mathlib

/-!
Verification development for the Enpal dashboard data layer.

The Python sources (`enpal_data_fetcher.py`, `Enpal-FoxESS/
enpal_comprehensive_data_fetcher.py`, `Enpal-FoxESS/enpal_api_server.py`)
are shallowly embedded below: the tabular-response parser as a function on
character lists, the field-transform layer as pure functions on a rational
valued raw field map, and the refresh cache as a step function on an
explicit cache state.  Python floats are idealised as exact rationals and
`round(x, n)` as decimal rounding half to even.
-/

set_option maxHeartbeats 1000000

namespace Enpal

/-- Nearest integer to a rational, ties to the even integer. -/
def roundHalfEven (s : ℚ) : ℤ :=
  if s - ⌊s⌋ < 1 / 2 then ⌊s⌋
  else if 1 / 2 < s - ⌊s⌋ then ⌊s⌋ + 1
  else if ⌊s⌋ % 2 = 0 then ⌊s⌋ else ⌊s⌋ + 1

/-- Decimal rounding half to even, modelling Python's `round(x, n)` on a
number idealised as an exact rational. -/
def pyRound (x : ℚ) (n : ℕ) : ℚ :=
  (roundHalfEven (x * (10 : ℚ) ^ n) : ℚ) / (10 : ℚ) ^ n

/-- Raw field map produced by one refresh cycle: field name to numeric
value.  String-valued entries (which the transform layer would crash on,
not default) are outside this numeric model. -/
abbrev RawMap := List (String × ℚ)

/-- Dictionary read with a default, modelling Python `all_data.get(key, d)`. -/
def getQ (m : RawMap) (k : String) (d : ℚ) : ℚ := (m.lookup k).getD d

/-- Output of `EnpalDataFetcher.get_energy_flow_data`. -/
structure EnergyFlowData where
  pv_power : ℚ
  consumption_power : ℚ
  battery_power : ℚ
  grid_power : ℚ
deriving DecidableEq

/-- Embeds `EnpalDataFetcher.get_energy_flow_data` (enpal_data_fetcher.py,
lines 160-180). -/
def get_energy_flow_data (m : RawMap) : EnergyFlowData :=
  let pv_power := getQ m "Power.Production.Total" 0 / 1000
  let consumption_power := getQ m "Power.Consumption.Total" 0 / 1000
  let battery_power := getQ m "Power.Battery.Charge.Discharge" 0 / 1000
  let grid_power := getQ m "Power.External.Total" 0 / 1000
  { pv_power := pyRound pv_power 2
    consumption_power := pyRound consumption_power 2
    battery_power := pyRound battery_power 2
    grid_power := pyRound grid_power 2 }

/-- Output of `EnpalDataFetcher.get_battery_data`. -/
structure BatteryData where
  soc : ℚ
  temperature : ℚ
  voltage : ℚ
  current : ℚ
  capacity_ah : ℚ
  health : ℚ
deriving DecidableEq

/-- Embeds `EnpalDataFetcher.get_battery_data` (enpal_data_fetcher.py,
lines 182-206). -/
def get_battery_data (m : RawMap) : BatteryData :=
  let soc := getQ m "Energy.Battery.Charge.Level" 0
  let temperature := getQ m "Temperature.Battery" 20
  let voltage := getQ m "Voltage.Battery" 0
  let current := getQ m "Current.Battery" 0
  let capacity_ah := getQ m "Energy.Battery.Ah" 0
  let soh := getQ m "Battery.SOH" 100
  { soc := pyRound soc 1
    temperature := pyRound temperature 1
    voltage := pyRound voltage 1
    current := pyRound current 1
    capacity_ah := pyRound capacity_ah 1
    health := pyRound soh 1 }

/-- Output of `EnpalDataFetcher.get_string_data`. -/
structure StringData where
  string1_power : ℚ
  string2_power : ℚ
  string1_voltage : ℚ
  string2_voltage : ℚ
  string1_current : ℚ
  string2_current : ℚ
  balance_percentage : ℚ
deriving DecidableEq

/-- Embeds `EnpalDataFetcher.get_string_data` (enpal_data_fetcher.py,
lines 208-239). -/
def get_string_data (m : RawMap) : StringData :=
  let string1_power := getQ m "Power.DC.String.1" 0 / 1000
  let string2_power := getQ m "Power.DC.String.2" 0 / 1000
  let string1_voltage := getQ m "Voltage.String.1" 0
  let string2_voltage := getQ m "Voltage.String.2" 0
  let string1_current := getQ m "Current.String.1" 0
  let string2_current := getQ m "Current.String.2" 0
  let balance :=
    if string1_power > 0 ∧ string2_power > 0 then
      pyRound (min string1_power string2_power / max string1_power string2_power * 100) 1
    else 100
  { string1_power := pyRound string1_power 2
    string2_power := pyRound string2_power 2
    string1_voltage := pyRound string1_voltage 1
    string2_voltage := pyRound string2_voltage 1
    string1_current := pyRound string1_current 1
    string2_current := pyRound string2_current 1
    balance_percentage := balance }

/-- Output of `EnpalDataFetcher.get_system_health_data`. -/
structure SystemHealthData where
  inverter_temp : ℚ
  grid_frequency : ℚ
  grid_voltage : ℚ
  cpu_load : ℚ
  memory_usage : ℚ
  system_uptime : ℚ
deriving DecidableEq

/-- Embeds `EnpalDataFetcher.get_system_health_data`
(enpal_data_fetcher.py, lines 241-270). -/
def get_system_health_data (m : RawMap) : SystemHealthData :=
  let inverter_temp := getQ m "Temperature.Housing.Inside" 0
  let grid_frequency := getQ m "Frequency.Grid" 50
  let voltage_a := getQ m "Voltage.Phase.A" 230
  let voltage_b := getQ m "Voltage.Phase.B" 230
  let voltage_c := getQ m "Voltage.Phase.C" 230
  let grid_voltage := (voltage_a + voltage_b + voltage_c) / 3
  let cpu_load := getQ m "Cpu.Load" 0
  let memory_usage := getQ m "Memory.Usage" 0
  { inverter_temp := pyRound inverter_temp 1
    grid_frequency := pyRound grid_frequency 2
    grid_voltage := pyRound grid_voltage 1
    cpu_load := pyRound cpu_load 1
    memory_usage := pyRound memory_usage 1
    system_uptime := 0 }

/-- Output of `EnpalDataFetcher.get_daily_summary`. -/
structure DailySummary where
  production_today : ℚ
  consumption_today : ℚ
  grid_export_today : ℚ
  autarky_rate : ℚ
deriving DecidableEq

/-- Embeds `EnpalDataFetcher.get_daily_summary` (enpal_data_fetcher.py,
lines 272-306). -/
def get_daily_summary (m : RawMap) : DailySummary :=
  let production_day := getQ m "Energy.Production.Total.Day" 0
  let consumption_day := getQ m "Energy.Consumption.Total.Day" 0
  let export_day := getQ m "Energy.Grid.Export.Day" 0
  let import_day := getQ m "Energy.Grid.Import.Day" 0
  let grid_export_day := export_day - import_day
  let autarky :=
    if consumption_day > 0 then
      min 100 (pyRound ((production_day - export_day) / consumption_day * 100) 1)
    else 0
  { production_today := pyRound production_day 2
    consumption_today := pyRound consumption_day 2
    grid_export_today := pyRound (max 0 grid_export_day) 2
    autarky_rate := max 0 autarky }

/-- Follows the SPEC's words for the autarky formula (for comparison with
`get_daily_summary`, which rounds the percentage to one decimal before
applying the `min`/`max` clamps): `min(100, self_consumption /
consumption_day * 100)` when `consumption_day > 0`, else `0`, clamped to
be non-negative. -/
def autarky_rate_claimed (production_day export_day consumption_day : ℚ) : ℚ :=
  max 0 (if 0 < consumption_day then
    min 100 ((production_day - export_day) / consumption_day * 100)
  else 0)

/-- Output of `EnpalComprehensiveDataFetcher.get_power_comprehensive`. -/
structure PowerComprehensive where
  production_total : ℚ
  consumption_total : ℚ
  external_total : ℚ
  house_total : ℚ
  dc_string1 : ℚ
  dc_string2 : ℚ
  dc_total : ℚ
  ac_phase_a : ℚ
  ac_phase_b : ℚ
  ac_phase_c : ℚ
  battery_charge_discharge : ℚ
  battery_charge_discharge_set : ℚ
  battery_charge_max : ℚ
  battery_discharge_max : ℚ
  storage_total : ℚ
  grid_export : ℚ
  power_factor : ℚ
  reactive_power : ℚ
  wallbox_charging : ℚ
  wallbox_offered : ℚ
  wallbox_requested : ℚ
deriving DecidableEq

/-- Embeds `EnpalComprehensiveDataFetcher.get_power_comprehensive`
(Enpal-FoxESS/enpal_comprehensive_data_fetcher.py, lines 122-148). -/
def get_power_comprehensive (m : RawMap) : PowerComprehensive :=
  { production_total := pyRound (getQ m "Power.Production.Total" 0 / 1000) 3
    consumption_total := pyRound (getQ m "Power.Consumption.Total" 0 / 1000) 3
    external_total := pyRound (getQ m "Power.External.Total" 0 / 1000) 3
    house_total := pyRound (getQ m "Power.House.Total" 0 / 1000) 3
    dc_string1 := pyRound (getQ m "Power.DC.String.1" 0 / 1000) 3
    dc_string2 := pyRound (getQ m "Power.DC.String.2" 0 / 1000) 3
    dc_total := pyRound (getQ m "Power.DC.Total" 0 / 1000) 3
    ac_phase_a := pyRound (getQ m "Power.AC.Phase.A" 0 / 1000) 3
    ac_phase_b := pyRound (getQ m "Power.AC.Phase.B" 0 / 1000) 3
    ac_phase_c := pyRound (getQ m "Power.AC.Phase.C" 0 / 1000) 3
    battery_charge_discharge := pyRound (getQ m "Power.Battery.Charge.Discharge" 0 / 1000) 3
    battery_charge_discharge_set := pyRound (getQ m "Power.Battery.Charge.Discharge.Set" 0 / 1000) 3
    battery_charge_max := pyRound (getQ m "Power.Battery.Charge.Max" 0 / 1000) 3
    battery_discharge_max := pyRound (getQ m "Power.Battery.Discharge.Max" 0 / 1000) 3
    storage_total := pyRound (getQ m "Power.Storage.Total" 0 / 1000) 3
    grid_export := pyRound (getQ m "Power.Grid.Export" 0 / 1000) 3
    power_factor := pyRound (getQ m "Power.Factor" 0) 3
    reactive_power := pyRound (getQ m "Power.Reactive" 0 / 1000) 3
    wallbox_charging := pyRound (getQ m "Power.Wallbox.Connector.1.Charging" 0 / 1000) 3
    wallbox_offered := pyRound (getQ m "Power.Wallbox.Connector.1.Offered" 0 / 1000) 3
    wallbox_requested := pyRound (getQ m "Power.Wallbox.Connector.1.Charging.Requested" 0 / 1000) 3 }

/-- Output of `EnpalComprehensiveDataFetcher.get_battery_comprehensive`. -/
structure BatteryComprehensive where
  soc_percent : ℚ
  soh_percent : ℚ
  charge_level_max : ℚ
  charge_level_min : ℚ
  charge_level_min_on_grid : ℚ
  voltage : ℚ
  current : ℚ
  capacity_ah : ℚ
  power_kw : ℚ
  capacity_kwh : ℚ
  available_kwh : ℚ
  temperature : ℚ
  charged_today_kwh : ℚ
  discharged_today_kwh : ℚ
  charged_lifetime_mwh : ℚ
  discharged_lifetime_mwh : ℚ
deriving DecidableEq

/-- Embeds `EnpalComprehensiveDataFetcher.get_battery_comprehensive`
(Enpal-FoxESS/enpal_comprehensive_data_fetcher.py, lines 221-248).
Python's `if voltage and current` tests numeric truthiness, i.e. both
operands non-zero. -/
def get_battery_comprehensive (m : RawMap) : BatteryComprehensive :=
  let soc := getQ m "Energy.Battery.Charge.Level" 0
  let voltage := getQ m "Voltage.Battery" 0
  let current := getQ m "Current.Battery" 0
  let capacity_ah := getQ m "Energy.Battery.Ah" 0
  let soh := getQ m "Battery.SOH" 100
  { soc_percent := pyRound soc 1
    soh_percent := pyRound soh 1
    charge_level_max := getQ m "Battery.ChargeLevel.Max" 100
    charge_level_min := getQ m "Battery.ChargeLevel.Min" 10
    charge_level_min_on_grid := getQ m "Battery.ChargeLevel.MinOnGrid" 10
    voltage := pyRound voltage 1
    current := pyRound current 2
    capacity_ah := pyRound capacity_ah 1
    power_kw := if voltage ≠ 0 ∧ current ≠ 0 then pyRound (voltage * current / 1000) 3 else 0
    capacity_kwh := if capacity_ah ≠ 0 ∧ voltage ≠ 0 then pyRound (capacity_ah * voltage / 1000) 1 else 0
    available_kwh :=
      if soc ≠ 0 ∧ capacity_ah ≠ 0 ∧ voltage ≠ 0 then
        pyRound (soc * capacity_ah * voltage / 100000) 1
      else 0
    temperature := pyRound (getQ m "Temperature.Battery" 0) 1
    charged_today_kwh := pyRound (getQ m "Energy.Battery.Charge.Day" 0) 2
    discharged_today_kwh := pyRound (getQ m "Energy.Battery.Discharge.Day" 0) 2
    charged_lifetime_mwh := pyRound (getQ m "Energy.Battery.Charge.Lifetime" 0) 1
    discharged_lifetime_mwh := pyRound (getQ m "Energy.Battery.Discharge.Lifetime" 0) 1 }

/-- Derived block of `EnpalDataFetcher.get_complete_dashboard_data`. -/
structure CalculatedData where
  total_string_power : ℚ
  string_balance : ℚ
  battery_capacity_kwh : ℚ
deriving DecidableEq

/-- One dashboard snapshot as assembled by
`EnpalDataFetcher.get_complete_dashboard_data` (enpal_data_fetcher.py,
lines 308-362).  Timestamps are modelled at the cache level. -/
structure DashboardData where
  online : Bool
  energy_flow : EnergyFlowData
  battery : BatteryData
  strings : StringData
  system : SystemHealthData
  daily : DailySummary
  calculated : CalculatedData
deriving DecidableEq

/-- Embeds the non-exception path of
`EnpalDataFetcher.get_complete_dashboard_data`: all category views are
computed from the raw map (possibly empty) and the status is reported
online.  The exception path (which yields an offline payload that the
server then refuses to cache) is modelled by `TickOutcome.exc` below. -/
def get_complete_dashboard_data (m : RawMap) : DashboardData :=
  let battery := get_battery_data m
  let strings := get_string_data m
  { online := true
    energy_flow := get_energy_flow_data m
    battery := battery
    strings := strings
    system := get_system_health_data m
    daily := get_daily_summary m
    calculated :=
      { total_string_power := pyRound (strings.string1_power + strings.string2_power) 2
        string_balance := strings.balance_percentage
        battery_capacity_kwh :=
          if battery.voltage > 0 then pyRound (battery.capacity_ah * battery.voltage / 1000) 1
          else 124 / 10 } }

/-- Mutable state of `EnpalAPIServer`: `cached_data` (Python `{}` when no
snapshot has been captured, modelled as `none`) and `last_update`
(timestamp in abstract time units, `None` initially). -/
structure CacheState where
  cached_data : Option DashboardData
  last_update : Option ℕ
deriving DecidableEq

/-- Initial state of `EnpalAPIServer.__init__`: `cached_data = {}`,
`last_update = None`. -/
def initialCacheState : CacheState := { cached_data := none, last_update := none }

/-- Outcome of one refresh cycle of `EnpalAPIServer._update_data`:
`fetched raw` means the pipeline ran without an exception and parsed the
query response to `raw` — a failed or empty fetch is `fetched []`, since
`_execute_flux_query` returns `None` on any request error and
`get_latest_all_data` then yields `{}` without raising; `exc` means an
unexpected exception somewhere in the cycle (caught either in
`get_complete_dashboard_data`, which then reports `online: False`, or in
`_update_data` itself). -/
inductive TickOutcome where
  | fetched (raw : RawMap)
  | exc
deriving DecidableEq

/-- Embeds `EnpalAPIServer._update_data` (Enpal-FoxESS/enpal_api_server.py,
lines 145-159) as a step function: when the cycle raises no exception,
`get_complete_dashboard_data` reports `online: True` (whatever the raw
map), so the guard `new_data.get('status').get('online')` passes and both
`cached_data` and `last_update` are replaced; on an exception the guard
fails (or the handler runs) and the state is left unchanged. -/
def update_data (s : CacheState) (t : ℕ) : TickOutcome → CacheState
  | .fetched raw =>
      { cached_data := some (get_complete_dashboard_data raw), last_update := some t }
  | .exc => s

/-- Embeds the `healthy` computation of the `/api/health` handler
(Enpal-FoxESS/enpal_api_server.py, lines 110-119):
`healthy = bool(self.cached_data and self.last_update)` — an empty dict
and `None` are falsy, anything cached with a timestamp is healthy. -/
def api_health_healthy (s : CacheState) : Bool :=
  s.cached_data.isSome && s.last_update.isSome

/-- Runs a list of refresh ticks (each a time and an outcome) from a
state, modelling the background update loop of `EnpalAPIServer`. -/
def run_ticks (s : CacheState) (ticks : List (ℕ × TickOutcome)) : CacheState :=
  ticks.foldl (fun st p => update_data st p.1 p.2) s

/-- Character list standing for a Python `str`. -/
abbrev Str := List Char

/-- Whitespace characters removed by Python's `str.strip()`. -/
def pyIsSpace (c : Char) : Bool :=
  c = ' ' || c = '\t' || c = '\n' || c = '\r' || c = '\x0b' || c = '\x0c'

/-- Right strip by a character predicate. -/
def rstripWith (p : Char → Bool) (s : Str) : Str :=
  (s.reverse.dropWhile p).reverse

/-- Python `str.strip()`. -/
def pyStrip (s : Str) : Str := rstripWith pyIsSpace (s.dropWhile pyIsSpace)

/-- Python `line.rstrip('\r')`. -/
def rstripCR (s : Str) : Str := rstripWith (fun c => c = '\r') s

/-- Helper for `pySplit`; `acc` holds the current chunk reversed. -/
def pySplitAux (sep : Char) : Str → Str → List Str
  | [], acc => [acc.reverse]
  | c :: rest, acc =>
      if c = sep then acc.reverse :: pySplitAux sep rest []
      else pySplitAux sep rest (c :: acc)

/-- Python `s.split(sep)` for a one-character separator: adjacent
separators are not collapsed and the empty string splits to `[""]`. -/
def pySplit (sep : Char) (s : Str) : List Str := pySplitAux sep s []

/-- Python `str.startswith`: character-by-character comparison with the
pattern. -/
def pyStartswith : Str → Str → Bool
  | [], _ => true
  | p :: ps, s =>
      match s with
      | [] => false
      | c :: cs => p = c && pyStartswith ps cs

/-- Numeric value of a decimal digit. -/
def digitVal? (c : Char) : Option ℕ :=
  if '0' ≤ c ∧ c ≤ '9' then some (c.toNat - '0'.toNat) else none

/-- Helper of `parseNat?`. -/
def parseNatAux : Str → ℕ → Option ℕ
  | [], acc => some acc
  | c :: rest, acc =>
      match digitVal? c with
      | some d => parseNatAux rest (acc * 10 + d)
      | none => none

/-- Digits-only natural number literal. -/
def parseNat? (s : Str) : Option ℕ :=
  if s = [] then none else parseNatAux s 0

/-- Splits a leading sign character; `true` means negative. -/
def splitSign : Str → Bool × Str
  | '-' :: rest => (true, rest)
  | '+' :: rest => (false, rest)
  | s => (false, s)

/-- Models Python `int(str)` on the stripped decimal literals this data
source produces: an optional sign followed by digits.  Exotic accepted
forms (digit-group underscores) are outside the model and would land in
the raw-string fallback. -/
def pyInt? (s : Str) : Option ℤ :=
  let (neg, rest) := splitSign s
  (parseNat? rest).map fun n => if neg then -(n : ℤ) else (n : ℤ)

/-- Models Python `float(str)` on plain decimal literals: an optional
sign, an integer part, a dot and a fractional part (at least one part
non-empty).  Exponent and named forms are outside the model and would
land in the raw-string fallback. -/
def pyFloat? (s : Str) : Option ℚ :=
  let (neg, rest) := splitSign s
  match pySplit '.' rest with
  | [intPart, fracPart] =>
      if intPart = [] ∧ fracPart = [] then none
      else
        let ip := if intPart = [] then some 0 else parseNat? intPart
        let fp := if fracPart = [] then some 0 else parseNat? fracPart
        match ip, fp with
        | some i, some f =>
            let q : ℚ := (i : ℚ) + (f : ℚ) / (10 : ℚ) ^ fracPart.length
            some (if neg then -q else q)
        | _, _ => none
  | _ => none

/-- Typed scalar stored by the parser: integer, floating point (idealised
as a rational) or the raw-string fallback. -/
inductive PyValue where
  | int (n : ℤ)
  | float (q : ℚ)
  | str (s : Str)
deriving DecidableEq

/-- Python dict assignment `d[k] = v`: replaces in place when the key is
present, appends otherwise. -/
def dictInsert (k : Str) (v : PyValue) : List (Str × PyValue) → List (Str × PyValue)
  | [] => [(k, v)]
  | (k', v') :: rest => if k' = k then (k, v) :: rest else (k', v') :: dictInsert k v rest

/-- Value stored for one paired (name, value) in the parser's inner loop:
`none` when nothing is stored (empty value or the literal `None`); the
numeric coercion tries `float` when the value contains a dot and `int`
otherwise, falling back to the raw string when the coercion raises
`ValueError`. -/
def storeValue (v : Str) : Option PyValue :=
  if v = [] ∨ v = ("None").data then none
  else if v.contains '.' then
    match pyFloat? v with
    | some q => some (.float q)
    | none => some (.str v)
  else
    match pyInt? v with
    | some n => some (.int n)
    | none => some (.str v)

/-- Parser state while scanning lines: the accumulated dictionary and the
field-name list set by the most recent header line. -/
structure ParseState where
  result : List (Str × PyValue)
  fieldNames : List Str
deriving DecidableEq

/-- Inner loop of the parser: pairs field names with values positionally
(`for i, field_name in enumerate(current_field_names)`), storing only
when the index is in range and both name and value are non-empty. -/
def processPairs : List Str → List Str → List (Str × PyValue) → List (Str × PyValue)
  | [], _, d => d
  | _ :: _, [], d => d
  | name :: names, v :: values, d =>
      let d' :=
        if name ≠ [] ∧ v ≠ [] then
          match storeValue v with
          | some pv => dictInsert name pv d
          | none => d
        else d
      processPairs names values d'

/-- Processes one line of the tabular response: comment and empty lines
are skipped; a header line (starting `,result,table,`) replaces the field
names with the non-empty entries from position 8 on; a data line
(starting `,_result,`, honoured only when field names are set) pairs the
values from position 8 on with the field names. -/
def processLine (st : ParseState) (line : Str) : ParseState :=
  if line = [] ∨ pyStartswith ("#").data line then st
  else
    let parts := (pySplit ',' line).map pyStrip
    if pyStartswith (",result,table,").data line then
      { st with fieldNames := (parts.drop 8).filter (fun n => n ≠ []) }
    else if pyStartswith (",_result,").data line ∧ st.fieldNames ≠ [] then
      let values := if parts.length > 8 then parts.drop 8 else []
      { st with result := processPairs st.fieldNames values st.result }
    else st

/-- Embeds `EnpalDataFetcher._parse_csv_response` (enpal_data_fetcher.py,
lines 78-139; `EnpalComprehensiveDataFetcher`'s copy at lines 71-106 is
identical): strip the payload, split into lines, drop blank lines, remove
trailing carriage returns, then fold `processLine` over the lines. -/
def parse_csv_response (csv : Str) : List (Str × PyValue) :=
  if csv = [] then []
  else
    let lines :=
      ((pySplit '\n' (pyStrip csv)).filter (fun l => pyStrip l ≠ [])).map rstripCR
    (lines.foldl processLine { result := [], fieldNames := [] }).result

/-- Joins comma-separated fields back into one line (the inverse image of
`pySplit ','` on comma-free fields), used to state parser claims over a
whole class of tabular inputs. -/
def joinComma : List Str → Str
  | [] => []
  | [p] => p
  | p :: q :: ps => p ++ ',' :: joinComma (q :: ps)

/-- Header line with arbitrary filler fields at positions 3-7 and the
field names `A`, `B` at positions 8 and 9. -/
def mkHeaderLine (h3 h4 h5 h6 h7 : Str) : Str :=
  joinComma [[], ("result").data, ("table").data, h3, h4, h5, h6, h7, ("A").data, ("B").data]

/-- Data line with arbitrary filler fields at positions 2-7 and the
values `1`, `2.5` at positions 8 and 9. -/
def mkDataLine (d2 d3 d4 d5 d6 d7 : Str) : Str :=
  joinComma [[], ("_result").data, d2, d3, d4, d5, d6, d7, ("1").data, ("2.5").data]

/-- A filler field is any string free of the two structural characters:
the field separator and the line separator. -/
def fillerOK (f : Str) : Bool := f.all fun c => !(c = ',' || c = '\n')

/-! ### Supporting lemmas for the rounding function -/

theorem roundHalfEven_nonneg (s : ℚ) (h : 0 ≤ s) : 0 ≤ roundHalfEven s := by
  unfold roundHalfEven
  have hf : (0 : ℤ) ≤ ⌊s⌋ := Int.floor_nonneg.mpr h
  split_ifs <;> omega

theorem roundHalfEven_le (s : ℚ) (b : ℤ) (h : s ≤ (b : ℚ)) : roundHalfEven s ≤ b := by
  unfold roundHalfEven
  have hfb : ⌊s⌋ ≤ b := by
    have h1 := Int.floor_le_floor h
    rwa [Int.floor_intCast] at h1
  have hfs : (⌊s⌋ : ℚ) ≤ s := Int.floor_le s
  split_ifs with h1 h2 h3
  · exact hfb
  · have hr : (1 : ℚ) / 2 ≤ s - ⌊s⌋ := le_of_not_lt h1
    have hc : (⌊s⌋ : ℚ) < (b : ℚ) := by linarith
    have : ⌊s⌋ < b := by exact_mod_cast hc
    omega
  · exact hfb
  · have hr : (1 : ℚ) / 2 ≤ s - ⌊s⌋ := le_of_not_lt h1
    have hc : (⌊s⌋ : ℚ) < (b : ℚ) := by linarith
    have : ⌊s⌋ < b := by exact_mod_cast hc
    omega

theorem pyRound_nonneg (x : ℚ) (n : ℕ) (h : 0 ≤ x) : 0 ≤ pyRound x n := by
  unfold pyRound
  apply div_nonneg
  · exact_mod_cast roundHalfEven_nonneg _ (mul_nonneg h (by positivity))
  · positivity

theorem pyRound_le (x : ℚ) (n : ℕ) (b : ℤ) (h : x ≤ (b : ℚ)) : pyRound x n ≤ (b : ℚ) := by
  unfold pyRound
  rw [div_le_iff₀ (by positivity : (0 : ℚ) < (10 : ℚ) ^ n)]
  have h2 : roundHalfEven (x * 10 ^ n) ≤ b * 10 ^ n := by
    apply roundHalfEven_le
    push_cast
    exact mul_le_mul_of_nonneg_right h (by positivity)
  calc (roundHalfEven (x * 10 ^ n) : ℚ) ≤ ((b * 10 ^ n : ℤ) : ℚ) := by exact_mod_cast h2
    _ = (b : ℚ) * 10 ^ n := by push_cast; ring

theorem ratio_bounds (a b : ℚ) (ha : 0 < a) (hb : 0 < b) :
    0 ≤ min a b / max a b * 100 ∧ min a b / max a b * 100 ≤ 100 := by
  have hmax : 0 < max a b := lt_max_iff.mpr (Or.inl ha)
  have hmin : 0 ≤ min a b := le_min ha.le hb.le
  constructor
  · exact mul_nonneg (div_nonneg hmin hmax.le) (by norm_num)
  · have hr : min a b / max a b ≤ 1 := (div_le_one hmax).mpr min_le_max
    calc min a b / max a b * 100 ≤ 1 * 100 := mul_le_mul_of_nonneg_right hr (by norm_num)
      _ = 100 := by norm_num

theorem div1000_pos_iff (x : ℚ) : 0 < x / 1000 ↔ 0 < x := by
  rw [lt_div_iff₀ (by norm_num : (0 : ℚ) < 1000)]
  simp

theorem div1000_ratio (p1 p2 : ℚ) (h1 : 0 < p1) (_h2 : 0 < p2) :
    min (p1 / 1000) (p2 / 1000) / max (p1 / 1000) (p2 / 1000) = min p1 p2 / max p1 p2 := by
  have hmax : max p1 p2 ≠ 0 := ne_of_gt (lt_max_iff.mpr (Or.inl h1))
  rw [min_div_div_right (by norm_num : (0 : ℚ) ≤ 1000),
    max_div_div_right (by norm_num : (0 : ℚ) ≤ 1000)]
  field_simp

theorem balance_scaled_eq (p1 p2 : ℚ) :
    (if 0 < p1 / 1000 ∧ 0 < p2 / 1000 then
        pyRound (min (p1 / 1000) (p2 / 1000) / max (p1 / 1000) (p2 / 1000) * 100) 1
      else 100) =
    (if 0 < p1 ∧ 0 < p2 then pyRound (min p1 p2 / max p1 p2 * 100) 1 else 100) := by
  by_cases h : 0 < p1 ∧ 0 < p2
  · rw [if_pos ⟨(div1000_pos_iff p1).mpr h.1, (div1000_pos_iff p2).mpr h.2⟩, if_pos h,
      div1000_ratio p1 p2 h.1 h.2]
  · rw [if_neg fun hc => h ⟨(div1000_pos_iff p1).mp hc.1, (div1000_pos_iff p2).mp hc.2⟩,
      if_neg h]

/-! ### Supporting lemmas for the cache model -/

theorem api_health_healthy_update (s : CacheState) (t : ℕ) (o : TickOutcome)
    (h : api_health_healthy s = true) : api_health_healthy (update_data s t o) = true := by
  cases o with
  | fetched raw => rfl
  | exc => exact h

theorem run_ticks_healthy (s0 : CacheState) (h : api_health_healthy s0 = true) :
    ∀ ticks : List (ℕ × TickOutcome), api_health_healthy (run_ticks s0 ticks) = true := by
  intro ticks
  induction ticks generalizing s0 with
  | nil => exact h
  | cons p rest ih =>
      show api_health_healthy (run_ticks (update_data s0 p.1 p.2) rest) = true
      exact ih _ (api_health_healthy_update s0 p.1 p.2 h)

/-! ### Claim theorems -/

/-- Claim C1 (corrected), counterexample: after one successful refresh, a
tick whose fetch failed (empty raw map, no exception) does NOT leave the
cache untouched — both the cached snapshot and the last-update timestamp
are replaced. -/
theorem update_data_failed_fetch_cex :
    (update_data (update_data initialCacheState 0
        (TickOutcome.fetched [("Power.Production.Total", 1500)])) 60
        (TickOutcome.fetched [])).cached_data ≠
      (update_data initialCacheState 0
        (TickOutcome.fetched [("Power.Production.Total", 1500)])).cached_data ∧
    (update_data (update_data initialCacheState 0
        (TickOutcome.fetched [("Power.Production.Total", 1500)])) 60
        (TickOutcome.fetched [])).last_update ≠
      (update_data initialCacheState 0
        (TickOutcome.fetched [("Power.Production.Total", 1500)])).last_update := by
  exact ⟨by decide!, by decide⟩

/-- Claim C1 (corrected, amended): the simple server publishes on every
refresh cycle that raises no exception — the raw map is never tested for
emptiness, so a failed or empty fetch still replaces both the cached
snapshot (with one computed from the empty raw map) and the last-update
timestamp; only an exception during the cycle leaves the state unchanged. -/
theorem update_data_publish_condition :
    ∀ (s : CacheState) (t : ℕ) (raw : RawMap),
      update_data s t (TickOutcome.fetched raw) =
        { cached_data := some (get_complete_dashboard_data raw), last_update := some t } ∧
      update_data s t TickOutcome.exc = s :=
  fun _ _ _ => ⟨rfl, rfl⟩

/-- Claim C3 (corrected), counterexample: on an empty raw field map the
battery view substitutes 20 (not 0) for the absent battery temperature. -/
theorem battery_temperature_default_cex :
    (get_battery_data []).temperature = 20 ∧ (get_battery_data []).temperature ≠ 0 :=
  ⟨by decide!, by decide!⟩

/-- Claim C3 (corrected, amended): transforming the empty raw field map
through every category function returns the fully populated per-field
default outputs without error — 0 for most fields, but 20 for battery
temperature, 100 for SOH and the charge-level maximum, 10 for the
charge-level minima, 50 for grid frequency and 230 for phase voltages. -/
theorem transforms_on_empty_raw :
    get_energy_flow_data [] = ⟨0, 0, 0, 0⟩ ∧
    get_battery_data [] = ⟨0, 20, 0, 0, 0, 100⟩ ∧
    get_string_data [] = ⟨0, 0, 0, 0, 0, 0, 100⟩ ∧
    get_system_health_data [] = ⟨0, 50, 230, 0, 0, 0⟩ ∧
    get_daily_summary [] = ⟨0, 0, 0, 0⟩ ∧
    get_power_comprehensive [] =
      ⟨0, 0, 0, 0, 0, 0, 0, 0, 0, 0, 0, 0, 0, 0, 0, 0, 0, 0, 0, 0, 0⟩ ∧
    get_battery_comprehensive [] = ⟨0, 100, 100, 10, 10, 0, 0, 0, 0, 0, 0, 0, 0, 0, 0, 0⟩ :=
  ⟨by decide!, by decide!, by decide!, by decide!, by decide!, by decide!, by decide!⟩

/-- Claim C4: every watt-denominated field of the comprehensive power view
is scaled by 1/1000 and rounded to 3 decimals, the power factor is
unscaled and rounded to 3 decimals, a raw `Power.Production.Total` of 1500
yields `production_total = 1.5`, and the same 1/1000 conversion is applied
in the other views that surface watt fields (energy flow, rounded to 2
decimals, and string power, rounded to 2 decimals). -/
theorem power_view_unit_scaling :
    (∀ m : RawMap,
      (get_power_comprehensive m).production_total =
        pyRound (getQ m "Power.Production.Total" 0 / 1000) 3 ∧
      (get_power_comprehensive m).consumption_total =
        pyRound (getQ m "Power.Consumption.Total" 0 / 1000) 3 ∧
      (get_power_comprehensive m).external_total =
        pyRound (getQ m "Power.External.Total" 0 / 1000) 3 ∧
      (get_power_comprehensive m).house_total =
        pyRound (getQ m "Power.House.Total" 0 / 1000) 3 ∧
      (get_power_comprehensive m).dc_string1 =
        pyRound (getQ m "Power.DC.String.1" 0 / 1000) 3 ∧
      (get_power_comprehensive m).dc_string2 =
        pyRound (getQ m "Power.DC.String.2" 0 / 1000) 3 ∧
      (get_power_comprehensive m).dc_total = pyRound (getQ m "Power.DC.Total" 0 / 1000) 3 ∧
      (get_power_comprehensive m).ac_phase_a =
        pyRound (getQ m "Power.AC.Phase.A" 0 / 1000) 3 ∧
      (get_power_comprehensive m).ac_phase_b =
        pyRound (getQ m "Power.AC.Phase.B" 0 / 1000) 3 ∧
      (get_power_comprehensive m).ac_phase_c =
        pyRound (getQ m "Power.AC.Phase.C" 0 / 1000) 3 ∧
      (get_power_comprehensive m).battery_charge_discharge =
        pyRound (getQ m "Power.Battery.Charge.Discharge" 0 / 1000) 3 ∧
      (get_power_comprehensive m).battery_charge_discharge_set =
        pyRound (getQ m "Power.Battery.Charge.Discharge.Set" 0 / 1000) 3 ∧
      (get_power_comprehensive m).battery_charge_max =
        pyRound (getQ m "Power.Battery.Charge.Max" 0 / 1000) 3 ∧
      (get_power_comprehensive m).battery_discharge_max =
        pyRound (getQ m "Power.Battery.Discharge.Max" 0 / 1000) 3 ∧
      (get_power_comprehensive m).storage_total =
        pyRound (getQ m "Power.Storage.Total" 0 / 1000) 3 ∧
      (get_power_comprehensive m).grid_export =
        pyRound (getQ m "Power.Grid.Export" 0 / 1000) 3 ∧
      (get_power_comprehensive m).power_factor = pyRound (getQ m "Power.Factor" 0) 3 ∧
      (get_power_comprehensive m).reactive_power =
        pyRound (getQ m "Power.Reactive" 0 / 1000) 3 ∧
      (get_power_comprehensive m).wallbox_charging =
        pyRound (getQ m "Power.Wallbox.Connector.1.Charging" 0 / 1000) 3 ∧
      (get_power_comprehensive m).wallbox_offered =
        pyRound (getQ m "Power.Wallbox.Connector.1.Offered" 0 / 1000) 3 ∧
      (get_power_comprehensive m).wallbox_requested =
        pyRound (getQ m "Power.Wallbox.Connector.1.Charging.Requested" 0 / 1000) 3 ∧
      (get_energy_flow_data m).pv_power =
        pyRound (getQ m "Power.Production.Total" 0 / 1000) 2 ∧
      (get_string_data m).string1_power = pyRound (getQ m "Power.DC.String.1" 0 / 1000) 2) ∧
    (get_power_comprehensive [("Power.Production.Total", 1500)]).production_total = 3 / 2 ∧
    (get_energy_flow_data [("Power.Production.Total", 1500)]).pv_power = 3 / 2 :=
  ⟨fun _ => ⟨rfl, rfl, rfl, rfl, rfl, rfl, rfl, rfl, rfl, rfl, rfl, rfl, rfl, rfl, rfl, rfl,
    rfl, rfl, rfl, rfl, rfl, rfl, rfl⟩, by decide!, by decide!⟩

/-- Claim C5: the comprehensive battery view computes
`power_kw = round(voltage * current / 1000, 3)` exactly when both the
battery voltage and current are non-zero and 0 otherwise; in particular
voltage 0 with current 5 gives 0, and voltage 400 with current 5 gives 2. -/
theorem battery_power_kw_guard :
    (∀ m : RawMap, (get_battery_comprehensive m).power_kw =
      if getQ m "Voltage.Battery" 0 ≠ 0 ∧ getQ m "Current.Battery" 0 ≠ 0 then
        pyRound (getQ m "Voltage.Battery" 0 * getQ m "Current.Battery" 0 / 1000) 3
      else 0) ∧
    (get_battery_comprehensive [("Voltage.Battery", 0), ("Current.Battery", 5)]).power_kw = 0 ∧
    (get_battery_comprehensive [("Voltage.Battery", 400), ("Current.Battery", 5)]).power_kw = 2 :=
  ⟨fun _ => rfl, by decide!, by decide!⟩

/-- Claim C6 (corrected), counterexample: the claim's unrounded formula
disagrees with the code at production 1, export 0, consumption 3 — the
code rounds the percentage to one decimal (33.3) before clamping, the
claim's formula keeps 100/3. -/
theorem autarky_unrounded_cex :
    (get_daily_summary [("Energy.Production.Total.Day", 1),
        ("Energy.Consumption.Total.Day", 3)]).autarky_rate ≠
      autarky_rate_claimed 1 0 3 := by decide!

/-- Claim C6 (corrected, amended): the autarky rate equals
`max(0, min(100, round((production_day - export_day) / consumption_day *
100, 1)))` when `consumption_day > 0` (the percentage is rounded to one
decimal before the clamps) and `max(0, 0) = 0` otherwise; it is never
negative, and for production 5, export 8, consumption 10 it is exactly 0. -/
theorem autarky_rate_formula :
    (∀ m : RawMap, (get_daily_summary m).autarky_rate =
      max 0 (if 0 < getQ m "Energy.Consumption.Total.Day" 0 then
        min 100 (pyRound ((getQ m "Energy.Production.Total.Day" 0 -
          getQ m "Energy.Grid.Export.Day" 0) /
          getQ m "Energy.Consumption.Total.Day" 0 * 100) 1)
      else 0)) ∧
    (∀ m : RawMap, 0 ≤ (get_daily_summary m).autarky_rate) ∧
    (get_daily_summary [("Energy.Production.Total.Day", 5), ("Energy.Grid.Export.Day", 8),
      ("Energy.Consumption.Total.Day", 10)]).autarky_rate = 0 :=
  ⟨fun _ => rfl, fun _ => le_max_left 0 _, by decide!⟩

/-- Claim C7: the string view's balance percentage equals
`round(min(p1, p2) / max(p1, p2) * 100, 1)` when both raw string powers
are strictly positive and exactly 100 in every other case (the checks and
the ratio in the code act on the kW-scaled powers, which changes
neither). -/
theorem string_balance_formula :
    ∀ m : RawMap, (get_string_data m).balance_percentage =
      if 0 < getQ m "Power.DC.String.1" 0 ∧ 0 < getQ m "Power.DC.String.2" 0 then
        pyRound (min (getQ m "Power.DC.String.1" 0) (getQ m "Power.DC.String.2" 0) /
          max (getQ m "Power.DC.String.1" 0) (getQ m "Power.DC.String.2" 0) * 100) 1
      else 100 := by
  intro m
  have hb : (get_string_data m).balance_percentage =
      if 0 < getQ m "Power.DC.String.1" 0 / 1000 ∧ 0 < getQ m "Power.DC.String.2" 0 / 1000 then
        pyRound (min (getQ m "Power.DC.String.1" 0 / 1000) (getQ m "Power.DC.String.2" 0 / 1000) /
          max (getQ m "Power.DC.String.1" 0 / 1000) (getQ m "Power.DC.String.2" 0 / 1000) * 100) 1
      else 100 := rfl
  rw [hb, balance_scaled_eq]

/-- Claim C8 (corrected), counterexample: after a successful refresh
followed by one failed-fetch cycle, `healthy` is still true, but the
served snapshot is NOT the prior one — the failed cycle replaced it with
the default-valued snapshot of an empty raw map. -/
theorem health_after_failed_fetch_cex :
    api_health_healthy (update_data (update_data initialCacheState 0
        (TickOutcome.fetched [("Power.Production.Total", 1500)])) 60
        (TickOutcome.fetched [])) = true ∧
    (update_data (update_data initialCacheState 0
        (TickOutcome.fetched [("Power.Production.Total", 1500)])) 60
        (TickOutcome.fetched [])).cached_data ≠
      (update_data initialCacheState 0
        (TickOutcome.fetched [("Power.Production.Total", 1500)])).cached_data :=
  ⟨by decide, by decide!⟩

/-- Claim C8 (corrected, amended): `healthy` is true exactly when a cached
snapshot and a last-update timestamp are both present, and after one
successful refresh it stays true through any further sequence of ticks
(a snapshot stays cached — though a failed fetch replaces it with a
default-valued one rather than preserving the prior one). -/
theorem health_healthy_iff :
    (∀ s : CacheState, api_health_healthy s = true ↔
      (s.cached_data.isSome = true ∧ s.last_update.isSome = true)) ∧
    (∀ (s : CacheState) (t : ℕ) (m : RawMap) (ticks : List (ℕ × TickOutcome)),
      api_health_healthy (run_ticks (update_data s t (TickOutcome.fetched m)) ticks) = true) := by
  constructor
  · intro s
    simp [api_health_healthy, Bool.and_eq_true]
  · intro s t m ticks
    exact run_ticks_healthy (update_data s t (TickOutcome.fetched m)) rfl ticks

/-- Claim C9: for every raw field map the string balance percentage lies
in the closed interval [0, 100]. -/
theorem string_balance_bounded :
    ∀ m : RawMap, 0 ≤ (get_string_data m).balance_percentage ∧
      (get_string_data m).balance_percentage ≤ 100 := by
  intro m
  have hb : (get_string_data m).balance_percentage =
      if 0 < getQ m "Power.DC.String.1" 0 / 1000 ∧ 0 < getQ m "Power.DC.String.2" 0 / 1000 then
        pyRound (min (getQ m "Power.DC.String.1" 0 / 1000) (getQ m "Power.DC.String.2" 0 / 1000) /
          max (getQ m "Power.DC.String.1" 0 / 1000) (getQ m "Power.DC.String.2" 0 / 1000) * 100) 1
      else 100 := rfl
  rw [hb]
  split_ifs with h
  · obtain ⟨hx0, hx1⟩ := ratio_bounds _ _ h.1 h.2
    refine ⟨pyRound_nonneg _ _ hx0, ?_⟩
    have h100 := pyRound_le (min (getQ m "Power.DC.String.1" 0 / 1000)
        (getQ m "Power.DC.String.2" 0 / 1000) /
        max (getQ m "Power.DC.String.1" 0 / 1000) (getQ m "Power.DC.String.2" 0 / 1000) * 100)
      1 100 (by exact_mod_cast hx1)
    exact_mod_cast h100
  · norm_num

/-- Claim C10: the daily summary's `grid_export_today` is the net export
`max(0, Energy.Grid.Export.Day - Energy.Grid.Import.Day)` rounded to two
decimals, hence never negative; when the day's import exceeds the export
(export 1, import 5) it is exactly 0. -/
theorem grid_export_today_netted :
    (∀ m : RawMap,
      (get_daily_summary m).grid_export_today =
        pyRound (max 0 (getQ m "Energy.Grid.Export.Day" 0 -
          getQ m "Energy.Grid.Import.Day" 0)) 2 ∧
      0 ≤ (get_daily_summary m).grid_export_today) ∧
    (get_daily_summary [("Energy.Grid.Export.Day", 1),
      ("Energy.Grid.Import.Day", 5)]).grid_export_today = 0 := by
  refine ⟨fun m => ⟨rfl, ?_⟩, by decide!⟩
  exact pyRound_nonneg _ _ (le_max_left 0 _)
/-! ### Supporting lemmas for the parser -/

theorem pySplitAux_no_sep (sep : Char) (xs : Str) :
    ∀ acc : Str, (∀ c ∈ xs, c ≠ sep) → pySplitAux sep xs acc = [acc.reverse ++ xs] := by
  induction xs with
  | nil => intro acc _; simp [pySplitAux]
  | cons c rest ih =>
      intro acc h
      have hc : c ≠ sep := h c (List.mem_cons_self c rest)
      simp only [pySplitAux, if_neg hc, List.append_eq]
      rw [ih (c :: acc) fun d hd => h d (List.mem_cons_of_mem c hd)]
      simp

theorem pySplitAux_append (sep : Char) (xs : Str) :
    ∀ (acc ys : Str), (∀ c ∈ xs, c ≠ sep) →
      pySplitAux sep (xs ++ sep :: ys) acc = (acc.reverse ++ xs) :: pySplitAux sep ys [] := by
  induction xs with
  | nil => intro acc ys _; simp [pySplitAux]
  | cons c rest ih =>
      intro acc ys h
      have hc : c ≠ sep := h c (List.mem_cons_self c rest)
      simp only [List.cons_append, pySplitAux, if_neg hc, List.append_eq]
      rw [ih (c :: acc) ys fun d hd => h d (List.mem_cons_of_mem c hd)]
      simp

theorem pySplit_no_sep (sep : Char) (xs : Str) (h : ∀ c ∈ xs, c ≠ sep) :
    pySplit sep xs = [xs] := by
  unfold pySplit
  rw [pySplitAux_no_sep sep xs [] h]
  simp

theorem pySplit_append (sep : Char) (xs ys : Str) (h : ∀ c ∈ xs, c ≠ sep) :
    pySplit sep (xs ++ sep :: ys) = xs :: pySplit sep ys := by
  unfold pySplit
  rw [pySplitAux_append sep xs [] ys h]
  simp

theorem pySplit_joinComma (ps : List Str) (hne : ps ≠ [])
    (h : ∀ p ∈ ps, ∀ c ∈ p, c ≠ ',') : pySplit ',' (joinComma ps) = ps := by
  induction ps with
  | nil => exact absurd rfl hne
  | cons p ps ih =>
      cases ps with
      | nil =>
          show pySplit ',' (joinComma [p]) = [p]
          exact pySplit_no_sep ',' p fun c hc => h p (List.mem_cons_self _ _) c hc
      | cons q ps' =>
          show pySplit ',' (p ++ ',' :: joinComma (q :: ps')) = p :: q :: ps'
          rw [pySplit_append ',' p _ fun c hc => h p (List.mem_cons_self _ _) c hc]
          rw [ih (by simp) fun r hr => h r (List.mem_cons_of_mem _ hr)]

theorem dropWhile_eq_self_of_head? (p : Char → Bool) (s : Str)
    (h : ∀ c ∈ s.head?, p c = false) : List.dropWhile p s = s := by
  cases s with
  | nil => rfl
  | cons c l =>
      have hc := h c (by simp)
      simp [List.dropWhile_cons, hc]

theorem rstripWith_eq_self_of_getLast? (p : Char → Bool) (s : Str)
    (h : ∀ c ∈ s.getLast?, p c = false) : rstripWith p s = s := by
  rcases s.eq_nil_or_concat with rfl | ⟨L, b, rfl⟩
  · rfl
  · have hb := h b (by simp [List.concat_eq_append, List.getLast?_concat])
    unfold rstripWith
    simp [List.concat_eq_append, List.reverse_append, List.dropWhile_cons, hb]

theorem pyStrip_eq_self (s : Str)
    (h1 : ∀ c ∈ s.head?, pyIsSpace c = false)
    (h2 : ∀ c ∈ s.getLast?, pyIsSpace c = false) : pyStrip s = s := by
  unfold pyStrip
  rw [dropWhile_eq_self_of_head? _ _ h1, rstripWith_eq_self_of_getLast? _ _ h2]

theorem pyStrip_ne_nil (s : Str) (c : Char) (hc : pyIsSpace c = false) (hmem : c ∈ s) :
    pyStrip s ≠ [] := by
  intro h
  unfold pyStrip rstripWith at h
  have h1 : List.dropWhile pyIsSpace (List.dropWhile pyIsSpace s).reverse = [] := by
    have h2 := congrArg List.reverse h
    simpa using h2
  rw [List.dropWhile_eq_nil_iff] at h1
  have hsplit := List.takeWhile_append_dropWhile (p := pyIsSpace) (l := s)
  have hmem' : c ∈ List.takeWhile pyIsSpace s ++ List.dropWhile pyIsSpace s := by
    rw [hsplit]; exact hmem
  rcases List.mem_append.mp hmem' with h2 | h2
  · have h3 := List.mem_takeWhile_imp h2
    simp [hc] at h3
  · have h3 := h1 c (List.mem_reverse.mpr h2)
    simp [hc] at h3

theorem rstripCR_eq_self_of_getLast? (s : Str)
    (h : ∀ c ∈ s.getLast?, (c == '\r') = false) : rstripCR s = s :=
  rstripWith_eq_self_of_getLast? _ s h

theorem joinComma_no_char (ch : Char) (hch : ch ≠ ',') :
    ∀ ps : List Str, (∀ p ∈ ps, ∀ c ∈ p, c ≠ ch) → ∀ c ∈ joinComma ps, c ≠ ch := by
  intro ps
  induction ps with
  | nil => intro _ c hc; simp [joinComma] at hc
  | cons p ps ih =>
      intro h c hc
      cases ps with
      | nil => exact h p (List.mem_cons_self _ _) c hc
      | cons q ps2 =>
          rw [show joinComma (p :: q :: ps2) = p ++ ',' :: joinComma (q :: ps2) from rfl] at hc
          rcases List.mem_append.mp hc with h1 | h1
          · exact h p (List.mem_cons_self _ _) c h1
          · rcases List.mem_cons.mp h1 with rfl | h1
            · exact fun hh => hch hh.symm
            · exact ih (fun r hr => h r (List.mem_cons_of_mem _ hr)) c h1

theorem fillerOK_spec (f : Str) (h : fillerOK f = true) :
    ∀ c ∈ f, c ≠ ',' ∧ c ≠ '\n' := by
  intro c hc
  have h2 := List.all_eq_true.mp h c hc
  simpa using h2

set_option maxHeartbeats 2000000 in
/-- Claim C2: for every tabular input consisting of one header line that
begins with `,result,table,` and names the fields `A`, `B` at positions 8
and 9 (arbitrary filler fields, free of separators, elsewhere), followed
by one data line that begins with `,_result,` and carries `1` and `2.5`
at positions 8 and 9, the parser returns exactly the map with `A` bound
to the integer 1 and `B` bound to the float 2.5. -/
theorem parse_csv_roundtrip_AB (h3 h4 h5 h6 h7 d2 d3 d4 d5 d6 d7 : Str)
    (hh : ∀ f ∈ [h3, h4, h5, h6, h7, d2, d3, d4, d5, d6, d7], fillerOK f = true) :
    parse_csv_response (mkHeaderLine h3 h4 h5 h6 h7 ++ '\n' :: mkDataLine d2 d3 d4 d5 d6 d7)
      = [(("A").data, PyValue.int 1), (("B").data, PyValue.float (5 / 2))] := by
  have hf3 := fillerOK_spec h3 (hh h3 (by simp))
  have hf4 := fillerOK_spec h4 (hh h4 (by simp))
  have hf5 := fillerOK_spec h5 (hh h5 (by simp))
  have hf6 := fillerOK_spec h6 (hh h6 (by simp))
  have hf7 := fillerOK_spec h7 (hh h7 (by simp))
  have hg2 := fillerOK_spec d2 (hh d2 (by simp))
  have hg3 := fillerOK_spec d3 (hh d3 (by simp))
  have hg4 := fillerOK_spec d4 (hh d4 (by simp))
  have hg5 := fillerOK_spec d5 (hh d5 (by simp))
  have hg6 := fillerOK_spec d6 (hh d6 (by simp))
  have hg7 := fillerOK_spec d7 (hh d7 (by simp))
  have hH_eq : mkHeaderLine h3 h4 h5 h6 h7 =
      (",result,table,").data ++
        (h3 ++ ',' :: (h4 ++ ',' :: (h5 ++ ',' :: (h6 ++ ',' :: (h7 ++ (",A,B").data))))) := rfl
  have hD_eq : mkDataLine d2 d3 d4 d5 d6 d7 =
      (",_result,").data ++
        (d2 ++ ',' :: (d3 ++ ',' :: (d4 ++ ',' :: (d5 ++ ',' ::
          (d6 ++ ',' :: (d7 ++ (",1,2.5").data)))))) := rfl
  -- parts are comma-free / newline-free
  have hpartsHc : ∀ p ∈ [([] : Str), ("result").data, ("table").data, h3, h4, h5, h6, h7,
      ("A").data, ("B").data], ∀ c ∈ p, c ≠ ',' := by
    intro p hp
    simp only [List.mem_cons, List.not_mem_nil, or_false] at hp
    rcases hp with rfl | rfl | rfl | rfl | rfl | rfl | rfl | rfl | rfl | rfl
    · intro c hc; simp at hc
    · decide
    · decide
    · exact fun c hc => (hf3 c hc).1
    · exact fun c hc => (hf4 c hc).1
    · exact fun c hc => (hf5 c hc).1
    · exact fun c hc => (hf6 c hc).1
    · exact fun c hc => (hf7 c hc).1
    · decide
    · decide
  have hpartsHn : ∀ p ∈ [([] : Str), ("result").data, ("table").data, h3, h4, h5, h6, h7,
      ("A").data, ("B").data], ∀ c ∈ p, c ≠ '\n' := by
    intro p hp
    simp only [List.mem_cons, List.not_mem_nil, or_false] at hp
    rcases hp with rfl | rfl | rfl | rfl | rfl | rfl | rfl | rfl | rfl | rfl
    · intro c hc; simp at hc
    · decide
    · decide
    · exact fun c hc => (hf3 c hc).2
    · exact fun c hc => (hf4 c hc).2
    · exact fun c hc => (hf5 c hc).2
    · exact fun c hc => (hf6 c hc).2
    · exact fun c hc => (hf7 c hc).2
    · decide
    · decide
  have hpartsDc : ∀ p ∈ [([] : Str), ("_result").data, d2, d3, d4, d5, d6, d7,
      ("1").data, ("2.5").data], ∀ c ∈ p, c ≠ ',' := by
    intro p hp
    simp only [List.mem_cons, List.not_mem_nil, or_false] at hp
    rcases hp with rfl | rfl | rfl | rfl | rfl | rfl | rfl | rfl | rfl | rfl
    · intro c hc; simp at hc
    · decide
    · exact fun c hc => (hg2 c hc).1
    · exact fun c hc => (hg3 c hc).1
    · exact fun c hc => (hg4 c hc).1
    · exact fun c hc => (hg5 c hc).1
    · exact fun c hc => (hg6 c hc).1
    · exact fun c hc => (hg7 c hc).1
    · decide
    · decide
  have hpartsDn : ∀ p ∈ [([] : Str), ("_result").data, d2, d3, d4, d5, d6, d7,
      ("1").data, ("2.5").data], ∀ c ∈ p, c ≠ '\n' := by
    intro p hp
    simp only [List.mem_cons, List.not_mem_nil, or_false] at hp
    rcases hp with rfl | rfl | rfl | rfl | rfl | rfl | rfl | rfl | rfl | rfl
    · intro c hc; simp at hc
    · decide
    · exact fun c hc => (hg2 c hc).2
    · exact fun c hc => (hg3 c hc).2
    · exact fun c hc => (hg4 c hc).2
    · exact fun c hc => (hg5 c hc).2
    · exact fun c hc => (hg6 c hc).2
    · exact fun c hc => (hg7 c hc).2
    · decide
    · decide
  have hHnl : ∀ c ∈ mkHeaderLine h3 h4 h5 h6 h7, c ≠ '\n' :=
    joinComma_no_char '\n' (by decide) _ hpartsHn
  have hDnl : ∀ c ∈ mkDataLine d2 d3 d4 d5 d6 d7, c ≠ '\n' :=
    joinComma_no_char '\n' (by decide) _ hpartsDn
  have hsplitH : pySplit ',' (mkHeaderLine h3 h4 h5 h6 h7) =
      [([] : Str), ("result").data, ("table").data, h3, h4, h5, h6, h7,
        ("A").data, ("B").data] :=
    pySplit_joinComma _ (by simp) hpartsHc
  have hsplitD : pySplit ',' (mkDataLine d2 d3 d4 d5 d6 d7) =
      [([] : Str), ("_result").data, d2, d3, d4, d5, d6, d7,
        ("1").data, ("2.5").data] :=
    pySplit_joinComma _ (by simp) hpartsDc
  -- the payload is unchanged by the outer strip
  have hhead : (mkHeaderLine h3 h4 h5 h6 h7 ++ '\n' :: mkDataLine d2 d3 d4 d5 d6 d7).head? =
      some ',' := by rw [hH_eq]; rfl
  have hD5 : mkDataLine d2 d3 d4 d5 d6 d7 =
      ((",_result,").data ++
        (d2 ++ ',' :: (d3 ++ ',' :: (d4 ++ ',' :: (d5 ++ ',' ::
          (d6 ++ ',' :: (d7 ++ (",1,2.").data))))))) ++ ['5'] := by
    rw [hD_eq, show (",1,2.5").data = (",1,2.").data ++ ['5'] from rfl]
    simp [List.append_assoc]
  have hlast : (mkHeaderLine h3 h4 h5 h6 h7 ++ '\n' :: mkDataLine d2 d3 d4 d5 d6 d7).getLast? =
      some '5' := by
    rw [List.getLast?_append, show ('\n' :: mkDataLine d2 d3 d4 d5 d6 d7).getLast? =
      (mkDataLine d2 d3 d4 d5 d6 d7).getLast?.getD '\n' from List.getLast?_cons, hD5,
      List.getLast?_concat]
    rfl
  have hstrip : pyStrip (mkHeaderLine h3 h4 h5 h6 h7 ++ '\n' :: mkDataLine d2 d3 d4 d5 d6 d7) =
      mkHeaderLine h3 h4 h5 h6 h7 ++ '\n' :: mkDataLine d2 d3 d4 d5 d6 d7 := by
    apply pyStrip_eq_self
    · rw [hhead]; intro c hc; simp at hc; subst hc; decide
    · rw [hlast]; intro c hc; simp at hc; subst hc; decide
  have hcsv_ne : mkHeaderLine h3 h4 h5 h6 h7 ++ '\n' :: mkDataLine d2 d3 d4 d5 d6 d7 ≠ [] := by
    rw [hH_eq]
    simp
  have hlines : pySplit '\n' (mkHeaderLine h3 h4 h5 h6 h7 ++ '\n' :: mkDataLine d2 d3 d4 d5 d6 d7) =
      [mkHeaderLine h3 h4 h5 h6 h7, mkDataLine d2 d3 d4 d5 d6 d7] := by
    rw [pySplit_append '\n' _ _ hHnl, pySplit_no_sep '\n' _ hDnl]
  have hfilH : pyStrip (mkHeaderLine h3 h4 h5 h6 h7) ≠ [] := by
    apply pyStrip_ne_nil _ ',' (by decide)
    rw [hH_eq]
    exact List.mem_append.mpr (Or.inl (by decide))
  have hfilD : pyStrip (mkDataLine d2 d3 d4 d5 d6 d7) ≠ [] := by
    apply pyStrip_ne_nil _ ',' (by decide)
    rw [hD_eq]
    exact List.mem_append.mpr (Or.inl (by decide))
  have hHB : mkHeaderLine h3 h4 h5 h6 h7 =
      ((",result,table,").data ++
        (h3 ++ ',' :: (h4 ++ ',' :: (h5 ++ ',' :: (h6 ++ ',' :: (h7 ++ (",A,").data)))))) ++
        ['B'] := by
    rw [hH_eq, show (",A,B").data = (",A,").data ++ ['B'] from rfl]
    simp [List.append_assoc]
  have hrstrH : rstripCR (mkHeaderLine h3 h4 h5 h6 h7) = mkHeaderLine h3 h4 h5 h6 h7 := by
    apply rstripWith_eq_self_of_getLast?
    rw [hHB, List.getLast?_concat]
    intro c hc; simp at hc; subst hc; decide
  have hrstrD : rstripCR (mkDataLine d2 d3 d4 d5 d6 d7) = mkDataLine d2 d3 d4 d5 d6 d7 := by
    apply rstripWith_eq_self_of_getLast?
    rw [hD5, List.getLast?_concat]
    intro c hc; simp at hc; subst hc; decide
  -- line conditions
  have hHne : mkHeaderLine h3 h4 h5 h6 h7 ≠ [] := by rw [hH_eq]; simp
  have hDne : mkDataLine d2 d3 d4 d5 d6 d7 ≠ [] := by rw [hD_eq]; simp
  have hHhash : pyStartswith ("#").data (mkHeaderLine h3 h4 h5 h6 h7) = false := by
    rw [hH_eq]; rfl
  have hDhash : pyStartswith ("#").data (mkDataLine d2 d3 d4 d5 d6 d7) = false := by
    rw [hD_eq]; rfl
  have hHhdr : pyStartswith ((",result,table,")).data (mkHeaderLine h3 h4 h5 h6 h7) = true := by
    rw [hH_eq]; rfl
  have hDhdr : pyStartswith ((",result,table,")).data (mkDataLine d2 d3 d4 d5 d6 d7) = false := by
    rw [hD_eq]; rfl
  have hDres : pyStartswith ((",_result,")).data (mkDataLine d2 d3 d4 d5 d6 d7) = true := by
    rw [hD_eq]; rfl
  have hstep1 : processLine { result := [], fieldNames := [] } (mkHeaderLine h3 h4 h5 h6 h7) =
      { result := [], fieldNames := [['A'], ['B']] } := by
    unfold processLine
    rw [if_neg (by rintro (h | h); exact hHne h; rw [hHhash] at h; cases h)]
    rw [if_pos hHhdr]
    rw [hsplitH]
    rfl
  have hstep2 : processLine { result := [], fieldNames := [['A'], ['B']] }
      (mkDataLine d2 d3 d4 d5 d6 d7) =
      { result := [(("A").data, PyValue.int 1), (("B").data, PyValue.float (5 / 2))],
        fieldNames := [['A'], ['B']] } := by
    unfold processLine
    rw [if_neg (by rintro (h | h); exact hDne h; rw [hDhash] at h; cases h)]
    rw [if_neg (by rw [hDhdr]; exact fun h => by cases h)]
    rw [if_pos (by refine ⟨hDres, by simp⟩)]
    rw [hsplitD]
    exact show ParseState.mk (processPairs [['A'], ['B']] [("1").data, ("2.5").data] [])
          [['A'], ['B']] =
        ParseState.mk [(("A").data, PyValue.int 1), (("B").data, PyValue.float (5 / 2))]
          [['A'], ['B']] from by decide!
  unfold parse_csv_response
  rw [if_neg hcsv_ne, hstrip, hlines]
  simp only [List.filter_cons, List.filter_nil, decide_eq_true_eq]
  rw [if_pos hfilH, if_pos hfilD]
  simp only [List.map_cons, List.map_nil, hrstrH, hrstrD, List.foldl_cons, List.foldl_nil]
  rw [hstep1, hstep2]

/-- Witness for claim C2: the parser applied to one concrete
InfluxDB-style payload with realistic filler columns. -/
theorem parse_csv_roundtrip_AB_witness :
    parse_csv_response (mkHeaderLine ("_start").data ("_stop").data ("_time").data
        ("_measurement").data ("host").data ++ '\n' ::
      mkDataLine ("0").data ("2024-01-01T00:00:00Z").data ("2024-01-02T00:00:00Z").data
        ("2024-01-01T12:00:00Z").data ("enpal").data ("rpi5").data) =
      [(("A").data, PyValue.int 1), (("B").data, PyValue.float (5 / 2))] :=
  parse_csv_roundtrip_AB _ _ _ _ _ _ _ _ _ _ _ (by decide)

end Enpal
